import Mathlib

/-!
Verification of the `tbot` ml-service (src/ml-service/{preprocess.py, model.py,
app.py}) against its natural-language specification.

The embedding is shallow: Python floats are modelled as exact rationals (ℚ),
numpy 2-D arrays of shape (n, 5) as `List (List ℚ)` (each row a 5-element
list), and the leading batch axis of size 1 that numpy's
`reshape(1, seq_len, 5)` adds is implicit in the representation (the single
sample is the matrix itself).  Fallible operations return `Option`/`Except`.
-/

namespace TBot

/-- A candle record, mirroring the request body's `CandleItem`
(app.py lines 20-25): five float fields, `volume` defaulting to 0.0.
`open` is written `«open»` because it is a Lean keyword. -/
structure Candle where
  «open» : ℚ
  high : ℚ
  low : ℚ
  close : ℚ
  volume : ℚ
deriving DecidableEq, Repr

/-- A numpy 2-D matrix of shape (n, 5). -/
abbrev Mat := List (List ℚ)

/-- model.py line 17. -/
def SEQ_LEN : ℕ := 60

/-- model.py line 18. -/
def NUM_FEATURES : ℕ := 5

/-- model.py line 19. -/
def PATTERNS : List String :=
  ["Head and Shoulders", "Double Bottom", "Bullish Flag", "Bearish Flag", "Consolidation"]

/-- model.py line 20. -/
def TRENDS : List String := ["BULLISH", "BEARISH", "NEUTRAL"]

/-- One row [o, h, l, cl, v] of the feature matrix (preprocess.py lines 19-25).
The request model guarantees every field is present, so the
`float(c.get(..., 0) or 0)` defaulting is the identity here. -/
def candleRow (c : Candle) : List ℚ :=
  [c.«open», c.high, c.low, c.close, c.volume]

/-- Column `j` of a matrix (the values sklearn's per-column scaler sees). -/
def colVals (data : Mat) (j : ℕ) : List ℚ :=
  data.map (fun r => r.getD j 0)

/-- `data_min_[j]` of sklearn's MinMaxScaler: the minimum of column `j`. -/
def colMin (data : Mat) (j : ℕ) : ℚ :=
  match colVals data j with
  | [] => 0
  | a :: l => l.foldl min a

/-- `data_max_[j]` of sklearn's MinMaxScaler: the maximum of column `j`. -/
def colMax (data : Mat) (j : ℕ) : ℚ :=
  match colVals data j with
  | [] => 0
  | a :: l => l.foldl max a

/-- The divisor sklearn uses per column: `data_max - data_min`, with a zero
range replaced by 1 (`_handle_zeros_in_scale`), so a constant column is
scaled by 1 rather than dividing by zero. -/
def scaleDenom (data : Mat) (j : ℕ) : ℚ :=
  if colMax data j - colMin data j = 0 then 1 else colMax data j - colMin data j

/-- `MinMaxScaler(feature_range=(0, 1)).fit_transform(data)`
(preprocess.py lines 30-31): every entry x of column j becomes
(x - data_min[j]) / (data_max[j] - data_min[j]), a zero range replaced by 1.
The arrays it is applied to always have 5 columns. -/
def minMaxScale (data : Mat) : Mat :=
  data.map (fun r =>
    (List.range NUM_FEATURES).map (fun j => (r.getD j 0 - colMin data j) / scaleDenom data j))

/-- preprocess.py lines 11-34, `ohlcv_to_features`: `None` on an empty list or
fewer than `seq_len` candles (both the line-16 and the redundant line-27
check are kept); otherwise build the (n, 5) matrix, min-max scale it as a
whole, and return the last `seq_len` rows.  The `(X, scaler)` pair of the
source is modelled by the matrix alone (every caller discards the scaler),
and the trivial `reshape(1, seq_len, 5)` batch axis is implicit. -/
def ohlcv_to_features (candles : List Candle) (seq_len : ℕ := 60) : Option Mat :=
  if candles.isEmpty ∨ candles.length < seq_len then none
  else if (candles.map candleRow).length < seq_len then none
  else some ((minMaxScale (candles.map candleRow)).drop
    ((minMaxScale (candles.map candleRow)).length - seq_len))

/-- preprocess.py lines 37-44, `prepare_predict_input`: keep the most recent
`max_candles` candles, then normalize. -/
def prepare_predict_input (candles : List Candle) (seq_len : ℕ := 60)
    (max_candles : ℕ := 500) : Option Mat :=
  ohlcv_to_features
    (if candles.length > max_candles then candles.drop (candles.length - max_candles)
     else candles) seq_len

/-- `X.size` of numpy: the number of entries of the matrix. -/
def matSize (X : Mat) : ℕ :=
  (X.map List.length).sum

/-- model.py line 31: `x[-20:, 3] if x.shape[0] >= 20 else x[:, 3]` —
the close column (index 3) of the last 20 rows, or of all rows when there
are fewer than 20. -/
def closesOf (x : Mat) : List ℚ :=
  if x.length ≥ 20 then (x.drop (x.length - 20)).map (fun r => r.getD 3 0)
  else x.map (fun r => r.getD 3 0)

/-- model.py line 34: `ret = (closes[-1] - closes[0]) / (closes[0] + 1e-8)`. -/
def mockReturn (x : Mat) : ℚ :=
  ((closesOf x).getLastD 0 - (closesOf x).headD 0) / ((closesOf x).headD 0 + 1e-8)

/-- model.py lines 23-48, `_mock_predict`: the rule-based fallback.  The
`x = x[0]` unbatching of line 29 is implicit in the matrix representation;
the `X is None` guard of line 25 cannot arise for a value of type `Mat`.
`mockReturn` is the `ret` local of line 34.  The volatility of line 35 is
computed but never used by the source (it involves a square root and has no
effect on the result), so it is not modelled. -/
def mock_predict (X : Mat) : String × ℚ × String :=
  if matSize X = 0 then ("Consolidation", 0.5, "NEUTRAL")
  else if (closesOf X).length < 2 then ("Consolidation", 0.5, "NEUTRAL")
  else if mockReturn X > 0.02 then
    ("Bullish Flag", min 0.95 (0.6 + |mockReturn X| * 5), "BULLISH")
  else if mockReturn X < -0.02 then
    ("Bearish Flag", min 0.95 (0.6 + |mockReturn X| * 5), "BEARISH")
  else ("Consolidation", 0.5, "NEUTRAL")

/-- `np.argmax` over a 1-D array: index of the first maximal entry
(`none` on an empty array, where numpy raises). -/
def argmaxAux : List ℚ → ℕ → ℕ → ℚ → ℕ
  | [], _, bi, _ => bi
  | a :: t, i, bi, bv => if a > bv then argmaxAux t (i + 1) i a else argmaxAux t (i + 1) bi bv

/-- `np.argmax` (first index attaining the maximum). -/
def argmax? : List ℚ → Option ℕ
  | [] => none
  | a :: t => some (argmaxAux t 1 0 a)

/-- `np.max` over a 1-D array (`none` on empty, where numpy raises). -/
def max? : List ℚ → Option ℚ
  | [] => none
  | a :: t => some (t.foldl max a)

/-- A loaded model, as the prediction path uses it: a function from the input
window to the output distribution `pred[0]`; `none` models any exception
raised by `model.predict` (shape mismatch, runtime error). -/
def ModelFn : Type := Mat → Option (List ℚ)

/-- The body of the `try` block of model.py lines 83-89: run the model, take
the arg-max index as the trend, its mass as the probability, and the
index-mapped pattern (index clamped to the last table entry).  Any failing
step — the model call itself, `np.argmax` on an empty output, or the
`TRENDS[idx]` lookup with `idx ≥ 3` — yields `none`, the raised-and-caught
exception. -/
def tryModelPredict (m : ModelFn) (X : Mat) : Option (String × ℚ × String) := do
  let probs ← m X
  let idx ← argmax? probs
  let trend ← TRENDS.get? idx
  let prob ← max? probs
  let pattern ← PATTERNS.get? (min idx (PATTERNS.length - 1))
  some (pattern, prob, trend)

/-- model.py lines 77-92, `predict`: use the model when one is loaded and
TensorFlow is importable, swallowing any failure; otherwise (or on failure)
fall back to the rule-based mock. -/
def predict (X : Mat) (model : Option ModelFn := none) (hasTF : Bool := true) :
    String × ℚ × String :=
  match model with
  | some m =>
    if hasTF then
      match tryModelPredict m X with
      | some r => r
      | none => mock_predict X
    else mock_predict X
  | none => mock_predict X

/-- model.py lines 66-74, `load_or_mock`, abstracted over the environment:
its observable result is either a loaded model or `None` (no TF, no artifact
file, or a load failure). -/
def LoadResult : Type := Option ModelFn

/-- app.py lines 37-41, `get_model`: the process-wide slot `_model` starts as
`None`; when the slot is `None` the load is attempted and its result stored.
Returns (value handed to `predict`, slot after the call). -/
def get_model (load_or_mock : LoadResult) (slot : Option ModelFn) :
    Option ModelFn × Option ModelFn :=
  match slot with
  | none => (load_or_mock, load_or_mock)
  | some m => (some m, some m)

/-- The condition under which `get_model` invokes `load_or_mock`
(the `if _model is None` test of app.py line 39). -/
def get_model_attempts_load (slot : Option ModelFn) : Bool :=
  slot.isNone

/-- The slot after `n` consecutive `/predict` requests, starting from the
initial `_model = None` (app.py line 35), with a fixed load result. -/
def get_model_iter (load_or_mock : LoadResult) : ℕ → Option ModelFn
  | 0 => none
  | n + 1 => (get_model load_or_mock (get_model_iter load_or_mock n)).2

/-- The two 400-class error kinds of the `/predict` endpoint:
`validation` is app.py line 50 ("At least 50 candles required"),
`insufficiency` is app.py line 54 ("Insufficient data after preprocessing"). -/
inductive ErrKind where
  | validation
  | insufficiency
deriving DecidableEq, Repr

/-- The `/predict` success body (app.py lines 57-61):
(pattern, probability rounded to 4 digits, trend_prediction). -/
abbrev Response := String × ℚ × String

/-- Python 3's `round`: round half to even. -/
def roundHalfEven (q : ℚ) : ℤ :=
  if q - ⌊q⌋ < 1/2 then ⌊q⌋
  else if q - ⌊q⌋ > 1/2 then ⌊q⌋ + 1
  else if ⌊q⌋ % 2 = 0 then ⌊q⌋ else ⌊q⌋ + 1

/-- `round(probability, 4)` of app.py line 59. -/
def round4 (q : ℚ) : ℚ :=
  (roundHalfEven (q * 10000) : ℚ) / 10000

/-- app.py lines 47-61, `predict_endpoint`, parameterized over the normalizer
it calls (so that "never attempts normalization" is a statement about every
normalizer): reject fewer than 50 candles, then normalize, then predict,
then round the probability. -/
def predict_endpoint_gen (normalize : List Candle → Option Mat) (model : Option ModelFn)
    (hasTF : Bool) (candles : List Candle) : Except ErrKind Response :=
  if candles.isEmpty ∨ candles.length < 50 then Except.error ErrKind.validation
  else
    match normalize candles with
    | none => Except.error ErrKind.insufficiency
    | some X =>
      Except.ok ((predict X model hasTF).1, round4 (predict X model hasTF).2.1,
        (predict X model hasTF).2.2)

/-- app.py's `/predict` with its actual normalizer,
`prepare_predict_input(candles, seq_len=SEQ_LEN)`. -/
def predict_endpoint (model : Option ModelFn) (hasTF : Bool) (candles : List Candle) :
    Except ErrKind Response :=
  predict_endpoint_gen (fun cs => prepare_predict_input cs SEQ_LEN) model hasTF candles

/-- The Normalizer as §4.1 of the spec words it: the scaling of the returned
window computed from the window's own matrix — the last `seq_len` rows —
rather than from the whole input.  Stated only to be compared against the
implementation's `ohlcv_to_features`. -/
def ohlcv_to_features_window_scaled (candles : List Candle) (seq_len : ℕ := 60) :
    Option Mat :=
  if candles.isEmpty ∨ candles.length < seq_len then none
  else some (minMaxScale
    ((candles.map candleRow).drop ((candles.map candleRow).length - seq_len)))

/-- Entry (i, j) of an optional matrix (defaulting to 0), the handle the
entry-level theorems use. -/
def entryO (w : Option Mat) (i j : ℕ) : ℚ :=
  ((w.getD []).getD i []).getD j 0

/-- Every feature column of the matrix has a non-degenerate (positive) range. -/
def nondegenerate (data : Mat) : Prop :=
  ∀ j, j < NUM_FEATURES → colMin data j < colMax data j

instance (data : Mat) : Decidable (nondegenerate data) := by
  unfold nondegenerate; infer_instance

/-- A strictly ascending list of rationals (used to state "monotonically
rising closes" decidably). -/
def strictlyIncr : List ℚ → Bool
  | [] => true
  | [_] => true
  | a :: b :: t => decide (a < b) && strictlyIncr (b :: t)

/-! ### Helper lemmas about the scaling pipeline -/

theorem foldl_min_le_init (l : List ℚ) (a : ℚ) : l.foldl min a ≤ a := by
  induction l generalizing a with
  | nil => exact le_refl a
  | cons y t ih => exact le_trans (ih (min a y)) (min_le_left a y)

theorem foldl_min_le_mem (l : List ℚ) (a x : ℚ) (hx : x ∈ l) : l.foldl min a ≤ x := by
  induction l generalizing a with
  | nil => cases hx
  | cons y t ih =>
    rcases List.mem_cons.1 hx with h | h
    · subst h
      exact le_trans (foldl_min_le_init t (min a x)) (min_le_right a x)
    · exact ih (min a y) h

theorem init_le_foldl_max (l : List ℚ) (a : ℚ) : a ≤ l.foldl max a := by
  induction l generalizing a with
  | nil => exact le_refl a
  | cons y t ih => exact le_trans (le_max_left a y) (ih (max a y))

theorem mem_le_foldl_max (l : List ℚ) (a x : ℚ) (hx : x ∈ l) : x ≤ l.foldl max a := by
  induction l generalizing a with
  | nil => cases hx
  | cons y t ih =>
    rcases List.mem_cons.1 hx with h | h
    · subst h
      exact le_trans (le_max_right a x) (init_le_foldl_max t (max a x))
    · exact ih (max a y) h

theorem colMin_le_entry (data : Mat) (r : List ℚ) (j : ℕ) (hr : r ∈ data) :
    colMin data j ≤ r.getD j 0 := by
  have hmem : r.getD j 0 ∈ colVals data j := List.mem_map_of_mem _ hr
  unfold colMin
  rcases hvc : colVals data j with _ | ⟨a, l⟩
  · rw [hvc] at hmem; cases hmem
  · rw [hvc] at hmem
    rcases List.mem_cons.1 hmem with h | h
    · rw [h]; exact foldl_min_le_init l a
    · exact foldl_min_le_mem l a _ h

theorem entry_le_colMax (data : Mat) (r : List ℚ) (j : ℕ) (hr : r ∈ data) :
    r.getD j 0 ≤ colMax data j := by
  have hmem : r.getD j 0 ∈ colVals data j := List.mem_map_of_mem _ hr
  unfold colMax
  rcases hvc : colVals data j with _ | ⟨a, l⟩
  · rw [hvc] at hmem; cases hmem
  · rw [hvc] at hmem
    rcases List.mem_cons.1 hmem with h | h
    · rw [h]; exact init_le_foldl_max l a
    · exact mem_le_foldl_max l a _ h

theorem ohlcv_eq_some (candles : List Candle) (s : ℕ) (hs : 0 < s)
    (hl : s ≤ candles.length) :
    ohlcv_to_features candles s =
      some ((minMaxScale (candles.map candleRow)).drop
        ((minMaxScale (candles.map candleRow)).length - s)) := by
  have hne : ¬(candles.isEmpty = true) := by
    have : candles ≠ [] := List.ne_nil_of_length_pos (lt_of_lt_of_le hs hl)
    simpa [List.isEmpty_iff]
  unfold ohlcv_to_features
  rw [if_neg (by exact not_or.2 ⟨hne, not_lt.2 hl⟩),
    if_neg (by rw [List.length_map]; exact not_lt.2 hl)]

theorem minMaxScale_length (data : Mat) : (minMaxScale data).length = data.length :=
  List.length_map _ _

/-- Row `i` of the window returned by the Normalizer is raw row
`candles.length - s + i` of the full feature matrix, scaled columnwise with
the min and the scale divisor of that **full** matrix. -/
theorem ohlcv_row (candles : List Candle) (s i : ℕ) (hs : 0 < s)
    (hl : s ≤ candles.length) (hi : i < s) :
    ((ohlcv_to_features candles s).getD []).getD i [] =
      (List.range NUM_FEATURES).map
        (fun j => (((candles.map candleRow).getD (candles.length - s + i) []).getD j 0
          - colMin (candles.map candleRow) j) / scaleDenom (candles.map candleRow) j) := by
  rw [ohlcv_eq_some candles s hs hl]
  set data := candles.map candleRow with hdata
  have hdl : data.length = candles.length := List.length_map _ _
  have hk0 : candles.length - s + i < data.length := by omega
  rw [Option.getD_some]
  simp only [List.getD_eq_getElem?_getD, List.getElem?_drop, minMaxScale,
    List.length_map, List.getElem?_map, hdl]
  rw [List.getElem?_eq_getElem hk0]
  simp only [Option.map_some', Option.getD_some]

/-- The window returned by the Normalizer, entry by entry: entry (i, j) is the
raw entry at row `candles.length - s + i` of the full feature matrix, scaled
with the min and the scale divisor of column `j` of that **full** matrix. -/
theorem ohlcv_entry (candles : List Candle) (s i j : ℕ) (hs : 0 < s)
    (hl : s ≤ candles.length) (hi : i < s) (hj : j < NUM_FEATURES) :
    entryO (ohlcv_to_features candles s) i j =
      (((candles.map candleRow).getD (candles.length - s + i) []).getD j 0
        - colMin (candles.map candleRow) j) / scaleDenom (candles.map candleRow) j := by
  rw [entryO, ohlcv_row candles s i hs hl hi]
  simp only [List.getD_eq_getElem?_getD, List.getElem?_map, List.getElem?_range hj,
    Option.map_some', Option.getD_some]

/-- The clamped fallback probability always lies in [1/2, 0.95]. -/
theorem clamped_prob_bounds (r : ℚ) :
    1/2 ≤ min 0.95 (0.6 + |r| * 5) ∧ min 0.95 (0.6 + |r| * 5) ≤ 0.95 := by
  constructor
  · refine le_min (by norm_num) ?_
    have h5 : (0 : ℚ) ≤ |r| * 5 := mul_nonneg (abs_nonneg r) (by norm_num)
    have : (0.6 : ℚ) = 3/5 := by norm_num
    linarith
  · exact min_le_left _ _

/-- The number of closes the fallback examines. -/
theorem closesOf_length (x : Mat) : (closesOf x).length = min x.length 20 := by
  unfold closesOf
  split
  · rw [List.length_map, List.length_drop]; omega
  · rw [List.length_map]; omega

/-- On a matrix of size 0 every extracted close is 0 and the computed return
is 0. -/
theorem mockReturn_of_size_zero (x : Mat) (hsz : matSize x = 0) : mockReturn x = 0 := by
  have hrow : ∀ r ∈ x, r = ([] : List ℚ) := by
    intro r hr
    have : ∀ n ∈ x.map List.length, n = 0 := by
      intro n hn
      have hle : n ≤ (x.map List.length).sum :=
        List.single_le_sum (fun _ _ => Nat.zero_le _) _ hn
      rw [matSize] at hsz
      omega
    have hlr : r.length = 0 := this r.length (List.mem_map_of_mem _ hr)
    exact List.eq_nil_of_length_eq_zero hlr
  have hz : ∀ q ∈ closesOf x, q = 0 := by
    intro q hq
    unfold closesOf at hq
    split at hq
    · rcases List.mem_map.1 hq with ⟨r, hr, hqe⟩
      have : r = [] := hrow r (List.mem_of_mem_drop hr)
      rw [← hqe, this]; rfl
    · rcases List.mem_map.1 hq with ⟨r, hr, hqe⟩
      have : r = [] := hrow r hr
      rw [← hqe, this]; rfl
  have hhead : (closesOf x).headD 0 = 0 := by
    rcases hc : closesOf x with _ | ⟨a, t⟩
    · rfl
    · have : a ∈ closesOf x := by rw [hc]; exact List.mem_cons_self a t
      simpa [List.headD] using hz a this
  have hlast : (closesOf x).getLastD 0 = 0 := by
    rcases hc : closesOf x with _ | ⟨a, t⟩
    · rfl
    · have hmem : (a :: t).getLast (by simp) ∈ closesOf x := by
        rw [hc]; exact List.getLast_mem _
      rw [List.getLastD_eq_getLast?, List.getLast?_eq_getLast _ (by simp),
        Option.getD_some]
      exact hz _ hmem
  rw [mockReturn, hhead, hlast]
  norm_num

/-! ### C5 -/

/-- C5: for every window with at least 2 usable closes, the fallback follows
the fixed piecewise rule on the computed return over the (at most) last 20
closes, and the returned probability always lies in [0.5, 0.95]. -/
theorem C5_fallback_piecewise (X : Mat) (h2 : 2 ≤ X.length) :
    mock_predict X =
      (if mockReturn X > 0.02 then
        ("Bullish Flag", min 0.95 (0.6 + |mockReturn X| * 5), "BULLISH")
       else if mockReturn X < -0.02 then
        ("Bearish Flag", min 0.95 (0.6 + |mockReturn X| * 5), "BEARISH")
       else ("Consolidation", 0.5, "NEUTRAL")) ∧
    1/2 ≤ (mock_predict X).2.1 ∧ (mock_predict X).2.1 ≤ 0.95 := by
  have hclen : ¬((closesOf X).length < 2) := by
    rw [closesOf_length]; omega
  by_cases hsz : matSize X = 0
  · have hr0 : mockReturn X = 0 := mockReturn_of_size_zero X hsz
    have hmp : mock_predict X = ("Consolidation", 0.5, "NEUTRAL") := by
      rw [mock_predict, if_pos hsz]
    refine ⟨?_, ?_⟩
    · rw [hmp, hr0]
      have h1 : ¬((0 : ℚ) > 0.02) := by norm_num
      have h2 : ¬((0 : ℚ) < -0.02) := by norm_num
      rw [if_neg h1, if_neg h2]
    · rw [hmp]; norm_num
  · have hmp : mock_predict X =
        (if mockReturn X > 0.02 then
          ("Bullish Flag", min 0.95 (0.6 + |mockReturn X| * 5), "BULLISH")
         else if mockReturn X < -0.02 then
          ("Bearish Flag", min 0.95 (0.6 + |mockReturn X| * 5), "BEARISH")
         else ("Consolidation", 0.5, "NEUTRAL")) := by
      rw [mock_predict, if_neg hsz, if_neg hclen]
    refine ⟨hmp, ?_⟩
    rw [hmp]
    by_cases hgt : mockReturn X > 0.02
    · rw [if_pos hgt]; exact clamped_prob_bounds _
    · rw [if_neg hgt]
      by_cases hlt : mockReturn X < -0.02
      · rw [if_pos hlt]; exact clamped_prob_bounds _
      · rw [if_neg hlt]; norm_num

/-- A concrete two-row window for C5: closes 1 and 2, return
(2 - 1)/(1 + 1e-8), the bullish branch with probability clamped at 0.95. -/
def X5 : Mat := [[1, 1, 1, 1, 1], [2, 2, 2, 2, 2]]

/-- Witness for C5 at the concrete window `X5`. -/
theorem C5_fallback_piecewise_witness :
    2 ≤ X5.length ∧
    (mock_predict X5 =
      (if mockReturn X5 > 0.02 then
        ("Bullish Flag", min 0.95 (0.6 + |mockReturn X5| * 5), "BULLISH")
       else if mockReturn X5 < -0.02 then
        ("Bearish Flag", min 0.95 (0.6 + |mockReturn X5| * 5), "BEARISH")
       else ("Consolidation", 0.5, "NEUTRAL")) ∧
    1/2 ≤ (mock_predict X5).2.1 ∧ (mock_predict X5).2.1 ≤ 0.95) :=
  ⟨by decide, C5_fallback_piecewise X5 (by decide)⟩

/-! ### C10 -/

/-- C10: the rule-based fallback only ever produces one of three fixed
(pattern, trend) pairs; in particular "Head and Shoulders" and
"Double Bottom" are never produced by the fallback. -/
theorem C10_fallback_label_pairs (X : Mat) :
    (((mock_predict X).1, (mock_predict X).2.2) = ("Bullish Flag", "BULLISH") ∨
     ((mock_predict X).1, (mock_predict X).2.2) = ("Bearish Flag", "BEARISH") ∨
     ((mock_predict X).1, (mock_predict X).2.2) = ("Consolidation", "NEUTRAL")) ∧
    (mock_predict X).1 ≠ "Head and Shoulders" ∧ (mock_predict X).1 ≠ "Double Bottom" := by
  unfold mock_predict
  split_ifs <;> simp

/-! ### C6 -/

/-- C6: any failure raised while invoking a loaded model inside `predict` is
swallowed, and the result is exactly the rule-based fallback on the same
window. -/
theorem C6_model_failure_falls_back (X : Mat) (m : ModelFn)
    (hfail : tryModelPredict m X = none) :
    predict X (some m) true = mock_predict X := by
  simp [predict, hfail]

/-- A model whose invocation always raises. -/
def failModel : ModelFn := fun _ => none

/-- Witness for C6: the always-raising model on the empty window. -/
theorem C6_model_failure_falls_back_witness :
    tryModelPredict failModel [] = none ∧
    predict [] (some failModel) true = mock_predict [] :=
  ⟨rfl, C6_model_failure_falls_back [] failModel rfl⟩

/-! ### C7 -/

/-- C7: with fewer than 50 candles the endpoint reports the validation error
no matter what the normalizer would do (so normalization is never consulted),
and the error kinds are checked in the fixed order: the validation error is
reported exactly on short inputs, the insufficiency error exactly when
validation passes and the normalizer returns `None`. -/
theorem C7_validation_before_normalization (normalize : List Candle → Option Mat)
    (model : Option ModelFn) (hasTF : Bool) (candles : List Candle) :
    (candles.length < 50 →
      predict_endpoint_gen normalize model hasTF candles = Except.error ErrKind.validation) ∧
    (predict_endpoint_gen normalize model hasTF candles = Except.error ErrKind.validation
      ↔ (candles.isEmpty ∨ candles.length < 50)) ∧
    (predict_endpoint_gen normalize model hasTF candles = Except.error ErrKind.insufficiency
      ↔ (¬(candles.isEmpty ∨ candles.length < 50) ∧ normalize candles = none)) := by
  unfold predict_endpoint_gen
  by_cases hv : candles.isEmpty ∨ candles.length < 50
  · rw [if_pos hv]
    refine ⟨fun _ => rfl, iff_of_true rfl hv, ?_⟩
    constructor
    · intro h; simp at h
    · rintro ⟨hna, _⟩; exact absurd hv hna
  · rw [if_neg hv]
    have h50 : ¬(candles.length < 50) := fun h => hv (Or.inr h)
    rcases hn : normalize candles with _ | X
    · refine ⟨fun h => absurd h h50, ?_, ?_⟩
      · constructor
        · intro h; simp at h
        · intro h; exact absurd h hv
      · exact ⟨fun _ => ⟨hv, rfl⟩, fun _ => rfl⟩
    · refine ⟨fun h => absurd h h50, ?_, ?_⟩
      · constructor
        · intro h; simp at h
        · intro h; exact absurd h hv
      · constructor
        · intro h; simp at h
        · rintro ⟨_, hnone⟩
          exact Option.noConfusion hnone

/-- A normalizer that would return a (meaningless) window on any input:
validation must win before it is ever consulted. -/
def anyWindowNormalizer : List Candle → Option Mat := fun _ => some [[1, 1, 1, 1, 1]]

/-- A concrete candle with all fields 1. -/
def candle1 : Candle := ⟨1, 1, 1, 1, 1⟩

/-- Witness for C7: 10 candles are rejected by validation even under a
normalizer that accepts everything. -/
theorem C7_validation_before_normalization_witness :
    (List.replicate 10 candle1).length < 50 ∧
    predict_endpoint_gen anyWindowNormalizer none false (List.replicate 10 candle1)
      = Except.error ErrKind.validation :=
  ⟨by decide,
    (C7_validation_before_normalization anyWindowNormalizer none false
      (List.replicate 10 candle1)).1 (by decide)⟩

/-! ### C8 -/

/-- C8: whenever the Normalizer succeeds, the returned window (the single
sample of the (1, seq_len, 5) batch) has exactly `seq_len` rows of exactly
`NUM_FEATURES` entries, and when every feature column of the data matrix has
a non-degenerate range, every entry of the window lies in [0, 1]. -/
theorem C8_window_shape_and_bounds (candles : List Candle) (s : ℕ) (w : Mat)
    (hw : ohlcv_to_features candles s = some w) (i j : ℕ)
    (hi : i < s) (hj : j < NUM_FEATURES) :
    w.length = s ∧ (w.getD i []).length = NUM_FEATURES ∧
    (nondegenerate (candles.map candleRow) →
      0 ≤ (w.getD i []).getD j 0 ∧ (w.getD i []).getD j 0 ≤ 1) := by
  have hcond : ¬(candles.isEmpty ∨ candles.length < s) := by
    intro hc
    rw [ohlcv_to_features, if_pos hc] at hw
    exact Option.noConfusion hw
  have hl : s ≤ candles.length := not_lt.1 (fun h => hcond (Or.inr h))
  have hs : 0 < s := lt_of_le_of_lt (Nat.zero_le i) hi
  have hw' := (ohlcv_eq_some candles s hs hl).symm.trans hw
  have hwO : (ohlcv_to_features candles s).getD [] = w := by
    rw [hw]; rfl
  set data := candles.map candleRow with hdata
  have hdl : data.length = candles.length := List.length_map _ _
  have hlen : w.length = s := by
    rw [← Option.some_inj.1 hw', List.length_drop, minMaxScale_length, hdl]
    omega
  have hrow : w.getD i [] =
      (List.range NUM_FEATURES).map
        (fun j => ((data.getD (candles.length - s + i) []).getD j 0
          - colMin data j) / scaleDenom data j) := by
    rw [← hwO]
    exact ohlcv_row candles s i hs hl hi
  refine ⟨hlen, ?_, ?_⟩
  · rw [hrow, List.length_map, List.length_range]
  · intro hnd
    have hk : candles.length - s + i < data.length := by omega
    have hentry : (w.getD i []).getD j 0 =
        ((data.getD (candles.length - s + i) []).getD j 0 - colMin data j)
          / scaleDenom data j := by
      rw [← hwO, ← entryO]
      exact ohlcv_entry candles s i j hs hl hi hj
    have hmem : data.getD (candles.length - s + i) [] ∈ data := by
      rw [List.getD_eq_getElem?_getD, List.getElem?_eq_getElem hk, Option.getD_some]
      exact List.getElem_mem hk
    have hmin := colMin_le_entry data _ j hmem
    have hmax := entry_le_colMax data _ j hmem
    have hpos : 0 < colMax data j - colMin data j := sub_pos.2 (hnd j hj)
    have hden : scaleDenom data j = colMax data j - colMin data j := by
      rw [scaleDenom, if_neg (ne_of_gt hpos)]
    rw [hentry, hden]
    constructor
    · exact div_nonneg (sub_nonneg.2 hmin) (le_of_lt hpos)
    · rw [div_le_one hpos]
      exact sub_le_sub_right hmax _

/-- Two concrete candles for the C8 witness. -/
def c8candles : List Candle := [⟨1, 2, 3, 4, 5⟩, ⟨6, 7, 8, 9, 10⟩]

/-- The window the Normalizer returns on `c8candles` with `seq_len = 2`. -/
def c8window : Mat := [[0, 0, 0, 0, 0], [1, 1, 1, 1, 1]]

/-- Witness for C8 at `c8candles`, `seq_len = 2`, entry (1, 0). -/
theorem C8_window_shape_and_bounds_witness :
    ohlcv_to_features c8candles 2 = some c8window ∧
    (1 < 2 ∧ 0 < NUM_FEATURES) ∧
    (c8window.length = 2 ∧ (c8window.getD 1 []).length = NUM_FEATURES ∧
      (nondegenerate (c8candles.map candleRow) →
        0 ≤ (c8window.getD 1 []).getD 0 0 ∧ (c8window.getD 1 []).getD 0 0 ≤ 1)) :=
  ⟨by with_unfolding_all decide, ⟨by decide, by decide⟩,
    C8_window_shape_and_bounds c8candles 2 c8window (by with_unfolding_all decide) 1 0
      (by decide) (by decide)⟩

/-! ### C9 -/

/-- Two concrete candles whose volume column is the constant 7 (a degenerate
zero-range column). -/
def c9candles : List Candle := [⟨1, 2, 3, 4, 7⟩, ⟨2, 3, 4, 5, 7⟩]

/-- Counterexample to C9 as stated: on a degenerate (constant) volume column
the Normalizer maps the entries to 0, not to the constant 0.5. -/
theorem C9_counterexample_degenerate_maps_to_zero_not_half :
    colMin (c9candles.map candleRow) 4 = colMax (c9candles.map candleRow) 4 ∧
    entryO (ohlcv_to_features c9candles 2) 0 4 = 0 ∧
    entryO (ohlcv_to_features c9candles 2) 0 4 ≠ 0.5 :=
  ⟨by with_unfolding_all decide, by with_unfolding_all decide, by with_unfolding_all decide⟩

/-- C9 amended: a degenerate zero-range column is mapped to the constant 0
(sklearn replaces the zero range by the divisor 1, so each entry becomes
x - col_min = 0); division by zero still never happens. -/
theorem C9_degenerate_column_maps_to_zero (candles : List Candle) (s i j : ℕ)
    (hs : 0 < s) (hl : s ≤ candles.length) (hi : i < s) (hj : j < NUM_FEATURES)
    (hdeg : colMin (candles.map candleRow) j = colMax (candles.map candleRow) j) :
    entryO (ohlcv_to_features candles s) i j = 0 := by
  rw [ohlcv_entry candles s i j hs hl hi hj]
  set data := candles.map candleRow with hdata
  have hk : candles.length - s + i < data.length := by
    rw [hdata, List.length_map]; omega
  have hmem : data.getD (candles.length - s + i) [] ∈ data := by
    rw [List.getD_eq_getElem?_getD, List.getElem?_eq_getElem hk, Option.getD_some]
    exact List.getElem_mem hk
  have hx : (data.getD (candles.length - s + i) []).getD j 0 = colMin data j :=
    le_antisymm (hdeg ▸ entry_le_colMax data _ j hmem) (colMin_le_entry data _ j hmem)
  have hden : scaleDenom data j = 1 := by
    rw [scaleDenom, if_pos (by rw [← hdeg, sub_self])]
  rw [hx, hden, sub_self, zero_div]

/-- Witness for the amended C9 at `c9candles`, `seq_len = 2`, entry (0, 4). -/
theorem C9_degenerate_column_maps_to_zero_witness :
    (0 < 2 ∧ 2 ≤ c9candles.length ∧ 0 < 2 ∧ 4 < NUM_FEATURES ∧
      colMin (c9candles.map candleRow) 4 = colMax (c9candles.map candleRow) 4) ∧
    entryO (ohlcv_to_features c9candles 2) 0 4 = 0 :=
  ⟨⟨by decide, by decide, by decide, by decide, by with_unfolding_all decide⟩,
    C9_degenerate_column_maps_to_zero c9candles 2 0 4 (by decide) (by decide)
      (by decide) (by decide) (by with_unfolding_all decide)⟩

/-! ### C2 -/

/-- Three concrete candles: the first (older, outside the window) holds every
column's minimum, so whole-input scaling and window-only scaling differ. -/
def c2candles : List Candle := [⟨0, 0, 0, 0, 0⟩, ⟨1, 1, 1, 1, 1⟩, ⟨2, 2, 2, 2, 2⟩]

/-- Counterexample to C2 as stated: with 3 candles and `seq_len = 2` the
implementation scales with the min/max of the **whole** input (entry (0,3)
of the window is (1-0)/(2-0) = 1/2), not with the window's own min/max
(which would give (1-1)/(2-1) = 0); the two normalizers disagree. -/
theorem C2_counterexample_scaling_uses_full_input :
    entryO (ohlcv_to_features c2candles 2) 0 3 = 1/2 ∧
    entryO (ohlcv_to_features_window_scaled c2candles 2) 0 3 = 0 ∧
    ohlcv_to_features c2candles 2 ≠ ohlcv_to_features_window_scaled c2candles 2 :=
  ⟨by with_unfolding_all decide, by with_unfolding_all decide,
    by with_unfolding_all decide⟩

/-- C2 amended: the per-column min-max scaling of the returned window is
computed from the **entire** (truncated) input matrix — entry (i, j) of the
window is the raw entry at row `length - seq_len + i` scaled with the min
and the (zero-guarded) range of column `j` of the full matrix, not of the
window's last `seq_len` rows alone. -/
theorem C2_scaling_from_full_matrix (candles : List Candle) (s i j : ℕ)
    (hs : 0 < s) (hl : s ≤ candles.length) (hi : i < s) (hj : j < NUM_FEATURES) :
    entryO (ohlcv_to_features candles s) i j =
      (((candles.map candleRow).getD (candles.length - s + i) []).getD j 0
        - colMin (candles.map candleRow) j) / scaleDenom (candles.map candleRow) j :=
  ohlcv_entry candles s i j hs hl hi hj

/-- Witness for the amended C2 at `c2candles`, `seq_len = 2`, entry (0, 3). -/
theorem C2_scaling_from_full_matrix_witness :
    (0 < 2 ∧ 2 ≤ c2candles.length ∧ 0 < 2 ∧ 3 < NUM_FEATURES) ∧
    entryO (ohlcv_to_features c2candles 2) 0 3 =
      (((c2candles.map candleRow).getD (c2candles.length - 2 + 0) []).getD 3 0
        - colMin (c2candles.map candleRow) 3) / scaleDenom (c2candles.map candleRow) 3 :=
  ⟨⟨by decide, by decide, by decide, by decide⟩,
    C2_scaling_from_full_matrix c2candles 2 0 3 (by decide) (by decide)
      (by decide) (by decide)⟩

/-! ### C1 -/

/-- 55 identical candles: enough for the facade's 50-candle floor, not enough
for `SEQ_LEN = 60`. -/
def c55 : List Candle := List.replicate 55 candle1

/-- Counterexample to C1 as stated: a 55-candle list passes the facade's
length validation yet has fewer than `SEQ_LEN` candles, and the endpoint
reports the post-normalization insufficiency error, not a validation error —
the facade's floor does not subsume the Normalizer's minimum. -/
theorem C1_counterexample_50_floor_below_seq_len :
    ¬(c55.isEmpty = true ∨ c55.length < 50) ∧ c55.length < SEQ_LEN ∧
    predict_endpoint none false c55 = Except.error ErrKind.insufficiency :=
  ⟨by decide, by decide, rfl⟩

/-- C1 amended: the facade's validation floor of 50 candles is **lower** than
the Normalizer's `seq_len = 60` minimum, so it does not subsume it: every
candle list with at least 50 but fewer than `SEQ_LEN` candles passes the
facade's validation and then fails normalization with the
data-insufficiency error, whatever model is loaded. -/
theorem C1_facade_floor_below_seq_len (model : Option ModelFn) (hasTF : Bool)
    (candles : List Candle) (h50 : 50 ≤ candles.length)
    (hlt : candles.length < SEQ_LEN) :
    predict_endpoint model hasTF candles = Except.error ErrKind.insufficiency := by
  have h60 : SEQ_LEN = 60 := rfl
  unfold predict_endpoint predict_endpoint_gen
  have hne : ¬(candles.isEmpty = true) := by
    have : candles ≠ [] := List.ne_nil_of_length_pos (by omega)
    simpa [List.isEmpty_iff]
  rw [if_neg (not_or.2 ⟨hne, by omega⟩)]
  have hnorm : prepare_predict_input candles SEQ_LEN = none := by
    rw [prepare_predict_input, if_neg (by omega), ohlcv_to_features,
      if_pos (Or.inr hlt)]
  simp only [hnorm]

/-- Witness for the amended C1 at the 55-candle list. -/
theorem C1_facade_floor_below_seq_len_witness :
    (50 ≤ c55.length ∧ c55.length < SEQ_LEN) ∧
    predict_endpoint none false c55 = Except.error ErrKind.insufficiency :=
  ⟨⟨by decide, by decide⟩,
    C1_facade_floor_below_seq_len none false c55 (by decide) (by decide)⟩

/-! ### C3 -/

/-- Counterexample to C3 as stated: with a failing load (`load_or_mock`
returning `None`), after the first request the process-wide slot still holds
`None` — the very value that makes `get_model` attempt the load — so the
second request re-attempts the load rather than finding a cached "no model"
marker. -/
theorem C3_counterexample_load_reattempted :
    get_model_iter none 1 = none ∧
    get_model_attempts_load (get_model_iter none 1) = true :=
  ⟨rfl, rfl⟩

/-- C3 amended: no "no model" marker distinct from the uninitialized state is
cached: when loading finds no artifact, the slot stays `None` after every
request, every subsequent request re-attempts the load, and each request
hands `predict` a `None` model, so the rule-based fallback is (still) used
each time. -/
theorem C3_load_retried_every_request (n : ℕ) :
    get_model_iter none n = none ∧
    get_model_attempts_load (get_model_iter none n) = true ∧
    (get_model none (get_model_iter none n)).1 = none ∧
    (∀ X : Mat, ∀ hasTF : Bool,
      predict X (get_model none (get_model_iter none n)).1 hasTF = mock_predict X) := by
  have hslot : get_model_iter none n = none := by
    induction n with
    | zero => rfl
    | succ k ih => rw [get_model_iter, ih]; rfl
  refine ⟨hslot, by rw [hslot]; rfl, by rw [hslot]; rfl, ?_⟩
  intro X hasTF
  rw [hslot]
  rfl

/-! ### C4 -/

/-- A candle with all five fields equal. -/
def constC (q : ℚ) : Candle := ⟨q, q, q, q, q⟩

/-- The spec's concrete scenario: 60 candles whose closes rise (linearly,
hence monotonically) from 100 to 110. -/
def c4candles : List Candle :=
  (List.range 60).map (fun i => constC (100 + 10 * (i : ℚ) / 59))

/-- The feature matrix of `c4candles`. -/
def c4data : Mat := c4candles.map candleRow

/-- The window the pipeline hands to the prediction strategy on `c4candles`. -/
def c4window : Mat := (minMaxScale c4data).drop ((minMaxScale c4data).length - 60)

theorem c4_norm : prepare_predict_input c4candles SEQ_LEN = some c4window := by
  have h : SEQ_LEN = 60 := rfl
  rw [prepare_predict_input, if_neg (by decide : ¬(c4candles.length > 500)), h]
  rw [ohlcv_eq_some c4candles 60 (by norm_num) (by decide)]
  rfl

set_option maxRecDepth 20000 in
theorem c4_closes : closesOf c4window = (List.range 20).map (fun i => ((40 + i : ℚ)) / 59) := by
  with_unfolding_all decide

theorem c4_ret : mockReturn c4window = 1900000000/4000000059 := by
  rw [mockReturn, c4_closes]
  have hlast : ((List.range 20).map (fun i => ((40 + i : ℚ)) / 59)).getLastD 0 = 1 := by
    with_unfolding_all decide
  have hhead : ((List.range 20).map (fun i => ((40 + i : ℚ)) / 59)).headD 0 = 40/59 := by
    with_unfolding_all decide
  rw [hlast, hhead]
  norm_num

set_option maxRecDepth 20000 in
theorem c4_size : matSize c4window = 300 := by with_unfolding_all decide

theorem c4_mock : mock_predict c4window = ("Bullish Flag", 0.95, "BULLISH") := by
  rw [mock_predict, if_neg (by rw [c4_size]; decide),
    if_neg (by rw [c4_closes]; decide), c4_ret,
    if_pos (by norm_num : (1900000000 : ℚ)/4000000059 > 0.02)]
  rw [abs_of_pos (by norm_num : (0 : ℚ) < 1900000000/4000000059)]
  rw [min_eq_left (by norm_num)]

set_option maxRecDepth 20000 in
/-- Counterexample to C4 as stated: on the 60-candle input whose closes rise
monotonically (linearly) from 100 to 110, the rule-based fallback — which
operates on the min-max-normalized window, not on raw closes — computes a
return different from 0.10. -/
theorem C4_counterexample_return_not_a_tenth :
    c4candles.length = 60 ∧ strictlyIncr (c4candles.map Candle.close) = true ∧
    (c4candles.headD candle1).close = 100 ∧ (c4candles.getLastD candle1).close = 110 ∧
    mockReturn c4window ≠ 0.10 := by
  refine ⟨by decide, by with_unfolding_all decide, by with_unfolding_all decide,
    by with_unfolding_all decide, ?_⟩
  rw [c4_ret]
  norm_num

/-- C4 amended: on the 60-candle input whose closes rise linearly from 100 to
110, the fallback (applied to the normalized window) computes
return = 1900000000/4000000059 ≈ 0.475 (not 0.10), its unclamped probability
0.6 + |return|·5 exceeds 0.95, and the endpoint's prediction is pattern
"Bullish Flag" with (clamped, rounded) probability 0.95 and trend BULLISH. -/
theorem C4_linear_rise_prediction :
    predict_endpoint none false c4candles = Except.ok ("Bullish Flag", 0.95, "BULLISH") ∧
    mockReturn c4window = 1900000000/4000000059 ∧
    0.6 + |mockReturn c4window| * 5 > 0.95 := by
  refine ⟨?_, c4_ret,
    by rw [c4_ret, abs_of_pos (by norm_num : (0 : ℚ) < 1900000000/4000000059)]; norm_num⟩
  unfold predict_endpoint predict_endpoint_gen
  rw [if_neg (by decide)]
  simp only [c4_norm]
  have hp : predict c4window none false = ("Bullish Flag", 0.95, "BULLISH") := c4_mock
  rw [hp]
  norm_num [round4, roundHalfEven]

end TBot
